import Mathlib

/-!
Shallow embedding of the techworld web application (src/my-project/app.py and
src/my-project/manage_admin.py): user/note/reaction store, the admin role model
with the pinned-superadmin gate, the notes/reply/reaction routes, and the CLI
and bootstrap role assignments.  Rows of the three sqlite tables become
structures; each request handler becomes a function from the store (plus the
session and form inputs) to a result and an updated store.
-/

/-- A row of the `users` table: id, username, email, password (hash), is_admin. -/
structure User where
  id : Nat
  username : String
  email : String
  passwordHash : String
  isAdmin : Nat
  deriving Repr, DecidableEq

/-- A row of the `notes` table: id, user_id, parent_note_id (nullable), content. -/
structure Note where
  id : Nat
  userId : Nat
  parentNoteId : Option Nat
  content : String
  deriving Repr, DecidableEq

/-- A row of the `reactions` table: id, note_id, user_id, emoji. -/
structure Reaction where
  id : Nat
  noteId : Nat
  userId : Nat
  emoji : String
  deriving Repr, DecidableEq

/-- The sqlite database: the three tables plus the AUTOINCREMENT counters for
notes and reactions. -/
structure DB where
  users : List User
  notes : List Note
  reactions : List Reaction
  nextNoteId : Nat
  nextReactionId : Nat
  deriving Repr, DecidableEq

/-- `SELECT ... FROM users WHERE id = ?` returning at most one row. -/
def findUser (db : DB) (uid : Nat) : Option User :=
  db.users.find? (fun u => u.id == uid)

/-- `SELECT ... FROM users WHERE username = ?` returning at most one row. -/
def findUserByName (db : DB) (name : String) : Option User :=
  db.users.find? (fun u => u.username == name)

/-- `SELECT id FROM notes WHERE id = ?` returning at most one row. -/
def findNote (db : DB) (nid : Nat) : Option Note :=
  db.notes.find? (fun n => n.id == nid)

/-- Python's `str.strip()` as used on the login username and the reaction
emoji: drop leading and trailing whitespace characters. -/
def stripString (s : String) : String :=
  ⟨((s.data.dropWhile Char.isWhitespace).reverse.dropWhile Char.isWhitespace).reverse⟩

/-- Outcome of the login route. -/
inductive LoginResult where
  | success (userId : Nat)
  | invalidCredentials
  deriving Repr, DecidableEq

/-- The `login` route (app.py lines 243-268): strip the username, look the user
up by username, and verify the password hash.  A missing row and a failed hash
check fall into the same `else` branch flashing the one generic message.  The
hashing collaborator `verify` abstracts werkzeug's check_password_hash. -/
def login (verify : String → String → Bool) (db : DB)
    (username password : String) : LoginResult :=
  match findUserByName db (stripString username) with
  | some u =>
      if verify u.passwordHash password then .success u.id else .invalidCredentials
  | none => .invalidCredentials

/-- The superadmin gate used by `admin`, `admin_promote` and `admin_delete`
(app.py lines 372, 392, 429): `cur_row[is_admin] == 2 and
(not admin_env_username or cur_row[username] == admin_env_username)`.
`adminEnv` is `os.environ.get(ADMIN_USER)`; Python truthiness makes an
empty-string value behave like an unset one. -/
def isSuperadminActor (adminEnv : Option String) (u : User) : Bool :=
  u.isAdmin == 2 &&
    (match adminEnv with
     | none => true
     | some e => e == "" || u.username == e)

/-- Outcome of the admin mutation routes. -/
inductive AdminResult where
  | updated
  | deleted
  | forbidden
  | unauthenticated
  | protectedAccount
  | noChange
  deriving Repr, DecidableEq

/-- The `admin_promote` route (app.py lines 379-413) wrapped in
`admin_required` (lines 333-353): the decorator redirects when there is no
session or the session user lacks is_admin in (1,2); the view then re-applies
the superadmin gate, rejects a target whose is_admin is 2, and otherwise runs
`UPDATE users SET is_admin = ? WHERE id = ?` with 1 for promote and 0 for
demote.  With a form user_id naming no row the UPDATE matches nothing but the
route still flashes success, hence `.updated` on the `none` target branch. -/
def adminPromote (adminEnv : Option String) (db : DB) (sessionUserId : Option Nat)
    (targetId : Nat) (action : String) : AdminResult × DB :=
  match sessionUserId with
  | none => (.unauthenticated, db)
  | some uid =>
    match findUser db uid with
    | none => (.forbidden, db)
    | some actor =>
      if !(actor.isAdmin == 1 || actor.isAdmin == 2) then (.forbidden, db)
      else if !(isSuperadminActor adminEnv actor) then (.forbidden, db)
      else if action == "promote" || action == "demote" then
        match findUser db targetId with
        | some target =>
          if target.isAdmin == 2 then (.protectedAccount, db)
          else
            (.updated, { db with users := db.users.map (fun u =>
              if u.id == targetId then
                { u with isAdmin := if action == "promote" then 1 else 0 }
              else u) })
        | none =>
          (.updated, { db with users := db.users.map (fun u =>
            if u.id == targetId then
              { u with isAdmin := if action == "promote" then 1 else 0 }
            else u) })
      else (.noChange, db)

/-- The `admin_delete` route (app.py lines 416-448) wrapped in
`admin_required`: decorator check, superadmin gate, protected-target check,
then `DELETE FROM users WHERE id = ?`.  Only the users table is touched:
notes and reactions are not cascaded. -/
def adminDelete (adminEnv : Option String) (db : DB) (sessionUserId : Option Nat)
    (targetId : Nat) : AdminResult × DB :=
  match sessionUserId with
  | none => (.unauthenticated, db)
  | some uid =>
    match findUser db uid with
    | none => (.forbidden, db)
    | some actor =>
      if !(actor.isAdmin == 1 || actor.isAdmin == 2) then (.forbidden, db)
      else if !(isSuperadminActor adminEnv actor) then (.forbidden, db)
      else
        match findUser db targetId with
        | some target =>
          if target.isAdmin == 2 then (.protectedAccount, db)
          else (.deleted, { db with users := db.users.filter (fun u => u.id != targetId) })
        | none =>
          (.deleted, { db with users := db.users.filter (fun u => u.id != targetId) })

/-- Outcome of the reply route. -/
inductive ReplyResult where
  | posted
  | parentNotFound
  | validationFailed
  | unauthenticated
  deriving Repr, DecidableEq

/-- ReplyForm's validators (app.py lines 128-129): DataRequired and
Length(min=1, max=500) on the content field. -/
def replyFormValid (content : String) : Bool :=
  1 ≤ content.length && content.length ≤ 500

/-- The `create_reply` route (app.py lines 570-599): session check, form
validation, then an explicit `SELECT id FROM notes WHERE id = ?` existence
check on the parent before the INSERT — the sqlite foreign key is never
enabled, so this application-level check is the only guard. -/
def createReply (db : DB) (sessionUserId : Option Nat) (noteId : Nat)
    (content : String) : ReplyResult × DB :=
  match sessionUserId with
  | none => (.unauthenticated, db)
  | some uid =>
    if replyFormValid content then
      match findNote db noteId with
      | some _ =>
        (.posted, { db with
          notes := db.notes ++
            [{ id := db.nextNoteId, userId := uid, parentNoteId := some noteId,
               content := content }],
          nextNoteId := db.nextNoteId + 1 })
      | none => (.parentNotFound, db)
    else (.validationFailed, db)

/-- PostNoteForm's validators (app.py line 125) and the `create_note` route
(lines 545-567): insert a top-level note for the session user. -/
def createNote (db : DB) (sessionUserId : Option Nat) (content : String) :
    ReplyResult × DB :=
  match sessionUserId with
  | none => (.unauthenticated, db)
  | some uid =>
    if replyFormValid content then
      (.posted, { db with
        notes := db.notes ++
          [{ id := db.nextNoteId, userId := uid, parentNoteId := none,
             content := content }],
        nextNoteId := db.nextNoteId + 1 })
    else (.validationFailed, db)

/-- Outcome of the reaction route. -/
inductive ReactResult where
  | added
  | removed
  | noteNotFound
  | invalidEmoji
  | unauthenticated
  deriving Repr, DecidableEq

/-- The WHERE clause shared by the reaction lookup and delete (app.py lines
625-635): `note_id = ? AND user_id = ? AND emoji = ?`. -/
def reactionMatches (nid uid : Nat) (emoji : String) (r : Reaction) : Bool :=
  r.noteId == nid && r.userId == uid && r.emoji == emoji

/-- ReactForm's validators (app.py lines 132-133): DataRequired and
Length(min=1, max=10) on the emoji field.  Note that `react_to_note` reads
`request.form` directly and never runs this form. -/
def reactFormValid (emoji : String) : Bool :=
  1 ≤ emoji.length && emoji.length ≤ 10

/-- The `react_to_note` route (app.py lines 602-650): session check, read and
strip the raw emoji field, reject only the empty string, check the note
exists, then toggle: delete the (note_id, user_id, emoji) row if present,
otherwise insert it. -/
def reactToNote (db : DB) (sessionUserId : Option Nat) (noteId : Nat)
    (rawEmoji : String) : ReactResult × DB :=
  match sessionUserId with
  | none => (.unauthenticated, db)
  | some uid =>
    let emoji := stripString rawEmoji
    if emoji == "" then (.invalidEmoji, db)
    else
      match findNote db noteId with
      | none => (.noteNotFound, db)
      | some _ =>
        match db.reactions.find? (reactionMatches noteId uid emoji) with
        | some _ =>
          (.removed, { db with reactions :=
            db.reactions.filter (fun r => !(reactionMatches noteId uid emoji r)) })
        | none =>
          (.added, { db with
            reactions := db.reactions ++
              [{ id := db.nextReactionId, noteId := noteId, userId := uid,
                 emoji := emoji }],
            nextReactionId := db.nextReactionId + 1 })

/-- The per-emoji count the aggregate query in `notes_list` (app.py lines
488-494) computes for one group: `SELECT emoji, COUNT(*) FROM reactions WHERE
note_id = ? GROUP BY emoji`; an emoji with no row has no group, count 0. -/
def reactionCount (db : DB) (nid : Nat) (emoji : String) : Nat :=
  (db.reactions.filter (fun r => r.noteId == nid && r.emoji == emoji)).length

/-- The `promote` CLI command (manage_admin.py lines 41-50):
`UPDATE users SET is_admin = 1 WHERE username = ?`. -/
def cliPromote (db : DB) (username : String) : DB :=
  { db with users := db.users.map (fun u =>
      if u.username == username then { u with isAdmin := 1 } else u) }

/-- The bootstrap step of `init_db` (app.py lines 91-103): when ADMIN_USER and
ADMIN_PASS are both set (and nonempty, by Python truthiness) and no row has
that username, insert a user with is_admin = 2.  `freshId` stands for the
AUTOINCREMENT id and `hash` for generate_password_hash. -/
def initDbBootstrap (adminUser adminPass : Option String)
    (hash : String → String) (freshId : Nat) (db : DB) : DB :=
  match adminUser, adminPass with
  | some au, some ap =>
    if au != "" && ap != "" then
      match findUserByName db au with
      | some _ => db
      | none =>
        { db with users := db.users ++
            [{ id := freshId, username := au, email := au ++ "@local",
               passwordHash := hash ap, isAdmin := 2 }] }
    else db
  | _, _ => db

/-! Concrete fixtures used by witnesses and counterexamples. -/

/-- Fixture: the environment-bootstrapped superadmin row. -/
def rootU : User :=
  { id := 1, username := "root", email := "root@local", passwordHash := "hr", isAdmin := 2 }

/-- Fixture: a regular admin row. -/
def aliceU : User :=
  { id := 2, username := "alice", email := "alice@local", passwordHash := "ha", isAdmin := 1 }

/-- Fixture: an ordinary user row. -/
def bobU : User :=
  { id := 3, username := "bob", email := "bob@local", passwordHash := "hb", isAdmin := 0 }

/-- Fixture: a role-2 row whose username differs from the configured one. -/
def eveU : User :=
  { id := 4, username := "eve", email := "eve@local", passwordHash := "he", isAdmin := 2 }

/-- Fixture: a top-level note authored by bob. -/
def noteBob : Note := { id := 1, userId := 3, parentNoteId := none, content := "hi" }

/-- Fixture database holding the four users and bob's note. -/
def db0 : DB :=
  { users := [rootU, aliceU, bobU, eveU], notes := [noteBob], reactions := [],
    nextNoteId := 2, nextReactionId := 1 }

/-! Claim theorems. -/

/-- C1: with a superadmin username configured (nonempty ADMIN_USER), the actor
passes the superadmin gate of promote/delete iff role = 2 and the username
matches; a role-2 actor with another username and a role-1 admin are both
rejected with Forbidden and the store is untouched. -/
theorem C1_pinned_superadmin_gate (e : String) (db : DB) (actor : User)
    (tid : Nat) (act : String)
    (he : e ≠ "") (hfind : findUser db actor.id = some actor) :
    isSuperadminActor (some e) actor = (actor.isAdmin == 2 && actor.username == e)
    ∧ (actor.isAdmin = 1 →
        adminPromote (some e) db (some actor.id) tid act = (.forbidden, db)
        ∧ adminDelete (some e) db (some actor.id) tid = (.forbidden, db))
    ∧ (actor.isAdmin = 2 → actor.username ≠ e →
        adminPromote (some e) db (some actor.id) tid act = (.forbidden, db)
        ∧ adminDelete (some e) db (some actor.id) tid = (.forbidden, db)) := by
  have he2 : (e == "") = false := beq_eq_false_iff_ne.mpr he
  refine ⟨by simp [isSuperadminActor, he2], ?_, ?_⟩
  · intro h1
    constructor <;>
      simp [adminPromote, adminDelete, hfind, isSuperadminActor, h1, he2]
  · intro h2 hname
    have hn : (actor.username == e) = false := beq_eq_false_iff_ne.mpr hname
    constructor <;>
      simp [adminPromote, adminDelete, hfind, isSuperadminActor, h2, he2, hn]

/-- Witness for C1 at the fixture: alice (role 1) and eve (role 2, username
not "root") are both rejected on promote and delete. -/
theorem C1_pinned_superadmin_gate_witness :
    (adminPromote (some "root") db0 (some aliceU.id) 3 "demote" = (.forbidden, db0)
      ∧ adminDelete (some "root") db0 (some aliceU.id) 3 = (.forbidden, db0))
    ∧ (adminPromote (some "root") db0 (some eveU.id) 3 "demote" = (.forbidden, db0)
      ∧ adminDelete (some "root") db0 (some eveU.id) 3 = (.forbidden, db0)) :=
  ⟨(C1_pinned_superadmin_gate "root" db0 aliceU 3 "demote" (by decide) (by decide)).2.1
      (by decide),
   (C1_pinned_superadmin_gate "root" db0 eveU 3 "demote" (by decide) (by decide)).2.2
      (by decide) (by decide)⟩

/-- C6: a reply whose parent id names no note fails with ParentNotFound and
leaves the store (in particular the notes table) unchanged; the check is the
explicit SELECT in the handler, not a storage constraint. -/
theorem C6_reply_missing_parent (db : DB) (uid nid : Nat) (content : String)
    (hval : replyFormValid content = true) (hpar : findNote db nid = none) :
    createReply db (some uid) nid content = (.parentNotFound, db) := by
  simp [createReply, hval, hpar]

/-- Witness for C6: replying to the absent note 99 fails and changes nothing. -/
theorem C6_reply_missing_parent_witness :
    createReply db0 (some 2) 99 "hello" = (.parentNotFound, db0) :=
  C6_reply_missing_parent db0 2 99 "hello" (by decide) (by decide)

/-- C8: a login with an unknown username and a login with a known username but
failing password check produce the same InvalidCredentials outcome — the two
results are equal, so no signal distinguishes the cases. -/
theorem C8_auth_no_enumeration (verify : String → String → Bool)
    (dbA dbB : DB) (uA pA uB pB : String) (u : User)
    (hA : findUserByName dbA (stripString uA) = none)
    (hB : findUserByName dbB (stripString uB) = some u)
    (hv : verify u.passwordHash pB = false) :
    login verify dbA uA pA = .invalidCredentials
    ∧ login verify dbB uB pB = .invalidCredentials
    ∧ login verify dbA uA pA = login verify dbB uB pB := by
  refine ⟨?_, ?_, ?_⟩ <;> simp [login, hA, hB, hv]

/-- Witness for C8: an unknown username and root with a wrong password both
yield InvalidCredentials under an equality-test hash verifier. -/
theorem C8_auth_no_enumeration_witness :
    login (fun h p => h == p) db0 "nobody" "pw" = .invalidCredentials
    ∧ login (fun h p => h == p) db0 "root" "wrong" = .invalidCredentials
    ∧ login (fun h p => h == p) db0 "nobody" "pw"
        = login (fun h p => h == p) db0 "root" "wrong" :=
  C8_auth_no_enumeration (fun h p => h == p) db0 db0 "nobody" "pw" "root" "wrong"
    rootU (by decide) (by decide) (by decide)

/-- C10: with no ADMIN_USER configured, the gate is just the role check —
every role-2 user passes it, and neither promote nor delete rejects such an
actor as forbidden or unauthenticated. -/
theorem C10_unpinned_superadmin_gate (db : DB) (actor : User) (tid : Nat)
    (act : String)
    (hfind : findUser db actor.id = some actor) (hrole : actor.isAdmin = 2) :
    (∀ u : User, isSuperadminActor none u = (u.isAdmin == 2))
    ∧ (adminPromote none db (some actor.id) tid act).fst ≠ .forbidden
    ∧ (adminPromote none db (some actor.id) tid act).fst ≠ .unauthenticated
    ∧ (adminDelete none db (some actor.id) tid).fst ≠ .forbidden
    ∧ (adminDelete none db (some actor.id) tid).fst ≠ .unauthenticated := by
  have hgate : isSuperadminActor none actor = true := by
    simp [isSuperadminActor, hrole]
  have hdec : (actor.isAdmin == 1 || actor.isAdmin == 2) = true := by
    simp [hrole]
  refine ⟨fun u => by simp [isSuperadminActor], ?_, ?_, ?_, ?_⟩ <;>
    simp only [adminPromote, adminDelete, hfind, hgate, hdec] <;>
    (repeat' split) <;> simp_all

/-- Witness for C10: eve has role 2 and a username differing from the absent
configuration, yet passes the gate and reaches the protected-target check. -/
theorem C10_unpinned_superadmin_gate_witness :
    isSuperadminActor none eveU = (eveU.isAdmin == 2)
    ∧ (adminPromote none db0 (some eveU.id) 3 "promote").fst ≠ .forbidden
    ∧ (adminDelete none db0 (some eveU.id) 3).fst ≠ .forbidden :=
  have h := C10_unpinned_superadmin_gate db0 eveU 3 "promote" (by decide) (by decide)
  ⟨h.1 eveU, h.2.1, h.2.2.2.1⟩

/-- C2 counterexample: with superadmin username "root" configured, admin alice
(role 1) attempting to delete or demote the role-2 user root is rejected as
Forbidden by the actor gate, not with ProtectedAccount as the claim states for
every actor identity. -/
theorem C2_counterexample_forbidden_not_protected :
    rootU.isAdmin = 2
    ∧ (adminDelete (some "root") db0 (some aliceU.id) rootU.id).fst
        = AdminResult.forbidden
    ∧ (adminPromote (some "root") db0 (some aliceU.id) rootU.id "demote").fst
        = AdminResult.forbidden
    ∧ AdminResult.forbidden ≠ AdminResult.protectedAccount := by
  decide

/-- C2 amended: a promote/demote or delete aimed at a role-2 target never
mutates the store and never reports success for any actor; when the actor
passes the superadmin gate (and, for promote, the action is valid), the
failure is ProtectedAccount. -/
theorem C2_protected_target_immutable (adminEnv : Option String) (db : DB)
    (sid : Option Nat) (target : User) (act : String)
    (htgt : findUser db target.id = some target) (hrole : target.isAdmin = 2) :
    (adminPromote adminEnv db sid target.id act).snd = db
    ∧ (adminDelete adminEnv db sid target.id).snd = db
    ∧ (adminPromote adminEnv db sid target.id act).fst ≠ .updated
    ∧ (adminDelete adminEnv db sid target.id).fst ≠ .deleted
    ∧ (∀ uid actor, sid = some uid → findUser db uid = some actor →
        isSuperadminActor adminEnv actor = true →
        (adminDelete adminEnv db sid target.id).fst = .protectedAccount
        ∧ ((act == "promote" || act == "demote") = true →
            (adminPromote adminEnv db sid target.id act).fst = .protectedAccount)) := by
  have hbeq : (target.isAdmin == 2) = true := by simp [hrole]
  refine ⟨?_, ?_, ?_, ?_, ?_⟩
  · unfold adminPromote
    repeat' split
    all_goals first | rfl | simp_all
  · unfold adminDelete
    repeat' split
    all_goals first | rfl | simp_all
  · unfold adminPromote
    repeat' split
    all_goals first | rfl | simp_all
  · unfold adminDelete
    repeat' split
    all_goals first | rfl | simp_all
  · intro uid actor hsid hactor hgate
    subst hsid
    have h2 : (actor.isAdmin == 2) = true := by
      unfold isSuperadminActor at hgate
      exact (Bool.and_eq_true _ _ ▸ hgate).1
    have hdec : (actor.isAdmin == 1 || actor.isAdmin == 2) = true := by
      simp [h2]
    refine ⟨?_, fun hact => ?_⟩
    · simp [adminDelete, hactor, hdec, hgate, htgt, hbeq]
    · simp [adminPromote, hactor, hdec, hgate, hact, htgt, hbeq]

/-- Witness for C2 amended: root itself cannot demote or delete eve (role 2);
both calls fail ProtectedAccount and leave the store untouched. -/
theorem C2_protected_target_immutable_witness :
    (adminPromote (some "root") db0 (some rootU.id) eveU.id "demote").snd = db0
    ∧ (adminDelete (some "root") db0 (some rootU.id) eveU.id).snd = db0
    ∧ (adminDelete (some "root") db0 (some rootU.id) eveU.id).fst
        = AdminResult.protectedAccount
    ∧ (adminPromote (some "root") db0 (some rootU.id) eveU.id "demote").fst
        = AdminResult.protectedAccount :=
  have h := C2_protected_target_immutable (some "root") db0 (some rootU.id) eveU
    "demote" (by decide) (by decide)
  have h5 := h.2.2.2.2 rootU.id rootU rfl (by decide) (by decide)
  ⟨h.1, h.2.1, h5.1, h5.2 (by decide)⟩

/-- C3 counterexample: root deletes bob; the delete succeeds, bob's note is
still in the notes table, and its author id no longer matches any user row. -/
theorem C3_counterexample_orphaned_note :
    (adminDelete none db0 (some rootU.id) bobU.id).fst = AdminResult.deleted
    ∧ noteBob ∈ (adminDelete none db0 (some rootU.id) bobU.id).snd.notes
    ∧ noteBob.userId = bobU.id
    ∧ findUser (adminDelete none db0 (some rootU.id) bobU.id).snd noteBob.userId
        = none := by
  decide

/-- C3 amended: a successful delete_user removes exactly the user rows with
the target id and leaves the notes and reactions tables untouched, so notes
authored by the deleted user survive with a dangling author reference. -/
theorem C3_delete_user_keeps_notes (adminEnv : Option String) (db : DB)
    (sid : Option Nat) (tid : Nat)
    (hdel : (adminDelete adminEnv db sid tid).fst = .deleted) :
    (adminDelete adminEnv db sid tid).snd.notes = db.notes
    ∧ (adminDelete adminEnv db sid tid).snd.reactions = db.reactions
    ∧ ∀ u ∈ (adminDelete adminEnv db sid tid).snd.users, u.id ≠ tid := by
  unfold adminDelete at hdel ⊢
  repeat' split <;> simp_all [List.mem_filter]

/-- Witness for C3 amended at the fixture delete of bob by root. -/
theorem C3_delete_user_keeps_notes_witness :
    (adminDelete none db0 (some rootU.id) bobU.id).snd.notes = db0.notes
    ∧ (adminDelete none db0 (some rootU.id) bobU.id).snd.reactions
        = db0.reactions
    ∧ ∀ u ∈ (adminDelete none db0 (some rootU.id) bobU.id).snd.users,
        u.id ≠ bobU.id :=
  C3_delete_user_keeps_notes none db0 (some rootU.id) bobU.id (by decide)

/-- In the success branch of the promote route the stored users are exactly
the UPDATE applied to every row carrying the target id. -/
theorem adminPromote_updated_users (adminEnv : Option String) (db : DB)
    (sid : Option Nat) (tid : Nat) (act : String)
    (h : (adminPromote adminEnv db sid tid act).fst = .updated) :
    (adminPromote adminEnv db sid tid act).snd.users
      = db.users.map (fun u =>
          if u.id == tid then { u with isAdmin := if act == "promote" then 1 else 0 }
          else u) := by
  unfold adminPromote at h ⊢
  repeat' split
  all_goals first | rfl | simp_all

/-- The promote route either leaves the users table unchanged or applies the
promote/demote UPDATE. -/
theorem adminPromote_users_shape (adminEnv : Option String) (db : DB)
    (sid : Option Nat) (tid : Nat) (act : String) :
    (adminPromote adminEnv db sid tid act).snd.users = db.users
    ∨ (adminPromote adminEnv db sid tid act).snd.users
      = db.users.map (fun u =>
          if u.id == tid then { u with isAdmin := if act == "promote" then 1 else 0 }
          else u) := by
  unfold adminPromote
  repeat' split
  all_goals first | exact Or.inl rfl | exact Or.inr rfl

/-- C5: a successful web promote sets the target row's role to 1 and a
successful demote to 0; neither the web promote route nor the CLI promote ever
produces a role-2 row that was not already stored, while the bootstrap insert
is the one place a fresh role-2 row appears. -/
theorem C5_promote_assigns_only_admin_or_none (adminEnv : Option String)
    (db : DB) (sid : Option Nat) (tid : Nat) (act : String)
    (hupd : (adminPromote adminEnv db sid tid act).fst = .updated) :
    (act = "promote" →
      ∀ u ∈ (adminPromote adminEnv db sid tid act).snd.users,
        u.id = tid → u.isAdmin = 1)
    ∧ (act = "demote" →
      ∀ u ∈ (adminPromote adminEnv db sid tid act).snd.users,
        u.id = tid → u.isAdmin = 0)
    ∧ (∀ u ∈ (adminPromote adminEnv db sid tid act).snd.users,
        u.isAdmin = 2 → u ∈ db.users)
    ∧ (∀ name : String, ∀ u ∈ (cliPromote db name).users,
        u.isAdmin = 2 → u ∈ db.users)
    ∧ (∀ au ap : Option String, ∀ hashF : String → String, ∀ fid : Nat,
        ∀ u ∈ (initDbBootstrap au ap hashF fid db).users,
          u ∈ db.users ∨ u.isAdmin = 2) := by
  have husers := adminPromote_updated_users adminEnv db sid tid act hupd
  refine ⟨?_, ?_, ?_, ?_, ?_⟩
  · intro hact u hu huid
    subst hact
    rw [husers] at hu
    rcases List.mem_map.mp hu with ⟨v, hv, hvu⟩
    by_cases hid : v.id = tid
    · rw [← hvu]
      simp [hid]
    · rw [← hvu] at huid
      simp [hid] at huid
  · intro hact u hu huid
    subst hact
    rw [husers] at hu
    rcases List.mem_map.mp hu with ⟨v, hv, hvu⟩
    by_cases hid : v.id = tid
    · rw [← hvu]
      simp [hid]
    · rw [← hvu] at huid
      simp [hid] at huid
  · intro u hu h2
    rcases adminPromote_users_shape adminEnv db sid tid act with hsh | hsh
    · rwa [hsh] at hu
    · rw [hsh] at hu
      rcases List.mem_map.mp hu with ⟨v, hv, hvu⟩
      by_cases hid : v.id = tid
      · exfalso
        rw [← hvu] at h2
        by_cases hp : act = "promote" <;> simp [hid, hp] at h2
      · rw [← hvu]
        simpa [hid] using hv
  · intro name u hu h2
    unfold cliPromote at hu
    rcases List.mem_map.mp hu with ⟨v, hv, hvu⟩
    by_cases hid : v.username = name
    · exfalso
      rw [← hvu] at h2
      simp [hid] at h2
    · rw [← hvu]
      simpa [hid] using hv
  · intro au ap hashF fid u hu
    unfold initDbBootstrap at hu
    repeat' split at hu
    all_goals try exact Or.inl hu
    rcases List.mem_append.mp hu with h | h
    · exact Or.inl h
    · simp only [List.mem_singleton] at h
      subst h
      exact Or.inr rfl

/-- Witness for C5: root promotes bob; the bob row stored afterwards carries
role 1. -/
theorem C5_promote_assigns_only_admin_or_none_witness :
    (({ id := 3, username := "bob", email := "bob@local", passwordHash := "hb",
        isAdmin := 1 } : User) ∈
      (adminPromote (some "root") db0 (some rootU.id) bobU.id
        "promote").snd.users)
    ∧ ({ id := 3, username := "bob", email := "bob@local", passwordHash := "hb",
         isAdmin := 1 } : User).isAdmin = 1 :=
  ⟨by decide,
   (C5_promote_assigns_only_admin_or_none (some "root") db0 (some rootU.id)
      bobU.id "promote" (by decide)).1 rfl
     { id := 3, username := "bob", email := "bob@local", passwordHash := "hb",
       isAdmin := 1 }
     (by decide) (by decide)⟩

/-- If the per-emoji count for a note is zero, the toggle lookup misses for
every user on that (note, emoji). -/
theorem count_zero_find_none (db : DB) (nid uid : Nat) (emoji : String)
    (h : reactionCount db nid emoji = 0) :
    db.reactions.find? (reactionMatches nid uid emoji) = none := by
  rw [List.find?_eq_none]
  intro r hr hp
  rw [reactionCount, List.length_eq_zero, List.filter_eq_nil_iff] at h
  apply h r hr
  unfold reactionMatches at hp
  simp only [Bool.and_eq_true] at hp
  simp [hp.1.1, hp.2]

/-- C4: with the note present and a nonempty already-stripped emoji, the
toggle removes the stored (note, user, emoji) row and reports Removed when it
exists, inserts it and reports Added when it does not; starting from zero
reactions for that (note, emoji), toggling twice yields Added then Removed,
restores the reactions table exactly, and the aggregate count for that emoji
is 0 again. -/
theorem C4_toggle_reaction (db : DB) (uid nid : Nat) (emoji : String)
    (hne : emoji ≠ "") (hstrip : stripString emoji = emoji)
    (hnote : (findNote db nid).isSome = true) :
    ((db.reactions.find? (reactionMatches nid uid emoji)).isSome = true →
      reactToNote db (some uid) nid emoji
        = (.removed, { db with reactions :=
            db.reactions.filter (fun r => !(reactionMatches nid uid emoji r)) }))
    ∧ (db.reactions.find? (reactionMatches nid uid emoji) = none →
      reactToNote db (some uid) nid emoji
        = (.added, { db with
            reactions := db.reactions ++
              [{ id := db.nextReactionId, noteId := nid, userId := uid,
                 emoji := emoji }],
            nextReactionId := db.nextReactionId + 1 }))
    ∧ (reactionCount db nid emoji = 0 →
      (reactToNote db (some uid) nid emoji).fst = .added
      ∧ (reactToNote (reactToNote db (some uid) nid emoji).snd
          (some uid) nid emoji).fst = .removed
      ∧ (reactToNote (reactToNote db (some uid) nid emoji).snd
          (some uid) nid emoji).snd.reactions = db.reactions
      ∧ reactionCount (reactToNote (reactToNote db (some uid) nid emoji).snd
          (some uid) nid emoji).snd nid emoji = 0) := by
  have hbeq : (emoji == "") = false := beq_eq_false_iff_ne.mpr hne
  rcases Option.isSome_iff_exists.mp hnote with ⟨n, hn⟩
  refine ⟨?_, ?_, ?_⟩
  · intro hfound
    rcases Option.isSome_iff_exists.mp hfound with ⟨r, hr⟩
    simp [reactToNote, hstrip, hbeq, hn, hr]
  · intro hnone
    simp [reactToNote, hstrip, hbeq, hn, hnone]
  · intro hcount
    have hfindnone := count_zero_find_none db nid uid emoji hcount
    have hall : ∀ r ∈ db.reactions, reactionMatches nid uid emoji r = false := by
      intro r hr
      have hnm := List.find?_eq_none.mp hfindnone r hr
      cases hx : reactionMatches nid uid emoji r
      · rfl
      · exact absurd hx hnm
    have hpnew : reactionMatches nid uid emoji
        { id := db.nextReactionId, noteId := nid, userId := uid,
          emoji := emoji } = true := by
      simp [reactionMatches]
    have h1 : reactToNote db (some uid) nid emoji
        = (.added, { db with
            reactions := db.reactions ++
              [{ id := db.nextReactionId, noteId := nid, userId := uid,
                 emoji := emoji }],
            nextReactionId := db.nextReactionId + 1 }) := by
      simp [reactToNote, hstrip, hbeq, hn, hfindnone]
    have hn2 : findNote { db with
        reactions := db.reactions ++
          [{ id := db.nextReactionId, noteId := nid, userId := uid,
             emoji := emoji }],
        nextReactionId := db.nextReactionId + 1 } nid = some n := by
      simpa [findNote] using hn
    have hfind2 : (db.reactions ++
        [({ id := db.nextReactionId, noteId := nid, userId := uid,
            emoji := emoji } : Reaction)]).find? (reactionMatches nid uid emoji)
        = some ({ id := db.nextReactionId, noteId := nid, userId := uid,
                  emoji := emoji } : Reaction) := by
      rw [List.find?_append, hfindnone]
      simp [List.find?, hpnew]
    have hfilter : (db.reactions ++
        [({ id := db.nextReactionId, noteId := nid, userId := uid,
            emoji := emoji } : Reaction)]).filter
          (fun r => !(reactionMatches nid uid emoji r)) = db.reactions := by
      rw [List.filter_append]
      have e1 : db.reactions.filter
          (fun r => !(reactionMatches nid uid emoji r)) = db.reactions :=
        List.filter_eq_self.mpr (fun a ha => by simp [hall a ha])
      have e2 : [({ id := db.nextReactionId, noteId := nid, userId := uid,
                    emoji := emoji } : Reaction)].filter
          (fun r => !(reactionMatches nid uid emoji r)) = [] := by
        simp [List.filter, hpnew]
      rw [e1, e2, List.append_nil]
    have h2 : reactToNote (reactToNote db (some uid) nid emoji).snd
        (some uid) nid emoji
        = (.removed, { db with
            reactions := db.reactions,
            nextReactionId := db.nextReactionId + 1 }) := by
      rw [h1]
      simp [reactToNote, hstrip, hbeq, hn2, hfind2, hfilter]
    refine ⟨by rw [h1], by rw [h2], by rw [h2], ?_⟩
    rw [h2]
    exact hcount

/-- Witness for C4: alice toggles "up" on bob's note twice; the second toggle
removes it and the aggregate count returns to 0. -/
theorem C4_toggle_reaction_witness :
    (reactToNote db0 (some 2) 1 "up").fst = .added
    ∧ (reactToNote (reactToNote db0 (some 2) 1 "up").snd (some 2) 1 "up").fst
        = .removed
    ∧ (reactToNote (reactToNote db0 (some 2) 1 "up").snd
        (some 2) 1 "up").snd.reactions = db0.reactions
    ∧ reactionCount (reactToNote (reactToNote db0 (some 2) 1 "up").snd
        (some 2) 1 "up").snd 1 "up" = 0 :=
  (C4_toggle_reaction db0 2 1 "up" (by decide) (by decide) (by decide)).2.2
    (by decide)

/-- C7 (code bug evidence): ReactForm declares the emoji length bound 1-10
but `react_to_note` reads the raw form field and never runs that form, so an
11-character emoji is accepted, reported Added, and stored. -/
theorem C7_overlong_emoji_stored :
    reactFormValid "0123456789X" = false
    ∧ ("0123456789X").length = 11
    ∧ (reactToNote db0 (some 2) 1 "0123456789X").fst = .added
    ∧ ({ id := db0.nextReactionId, noteId := 1, userId := 2,
         emoji := "0123456789X" } : Reaction) ∈
        (reactToNote db0 (some 2) 1 "0123456789X").snd.reactions := by
  decide
